import Mathlib

/-!
Verification of the AstroPitography capture-parameter state machine.

This file is a shallow embedding of the manager-class revision of the
program (src/astropitography/camera_manager.py, gui_manager.py and the
event loop of AstroPitography.py).  Python attribute updates are modelled
as record updates on an explicit state structure; the dynamic `setattr`
calls of `reset_to_default` are modelled by a string-keyed dispatch so
that the attribute-name mismatch of the source is preserved; side effects
on the camera device and the GUI are modelled as an explicit event trace;
exceptions of the Python runtime are modelled with `Except Unit`.
Machine integers are modelled as `Int` (Python integers are unbounded, so
no wrap-around is introduced).  Floating point is avoided: the only float
in the modelled code paths is the camera framerate `1 / exposure`, which
the trace records symbolically as a numerator/denominator pair.
-/

namespace AstroPitography

/-- State of a `PiCamManager` object.  Fields mirror the attributes set in
`PiCamManager.__init__`.  The two `Option Int` fields model attributes that
do not exist after `__init__` but are created later by dynamic attribute
assignment: `image_no` (created by `reset_to_default` via `setattr`, because
the `default_settings` dictionary uses the key "image_no" although the
attribute read everywhere else is `img_count`) and `exposure_img_count`
(created by `update_camera_settings`).  `none` means the attribute is absent. -/
structure PiCamManager where
  brightness : Int
  contrast : Int
  saturation : Int
  sharpness : Int
  img_count : Int
  exposure : Int
  time_step : Int
  vid_time : Int
  last_image : String
  DNG_convert : Bool
  image_no : Option Int
  exposure_img_count : Option Int
  deriving Repr, DecidableEq

/-- The state produced by `PiCamManager.__init__` (camera detached). -/
def initManager : PiCamManager :=
  { brightness := 50
    contrast := 0
    saturation := 0
    sharpness := 0
    img_count := 1
    exposure := 1
    time_step := 2
    vid_time := 10
    last_image := "blackimage.png"
    DNG_convert := false
    image_no := none
    exposure_img_count := none }

/-- The `default_settings` dictionary built in `__init__`, as an ordered
association list.  Note the key "image_no": no attribute of that name is
created in `__init__` (the attribute holding the image count is named
`img_count`). -/
def default_settings : List (String × Int) :=
  [("brightness", 50), ("contrast", 0), ("saturation", 0), ("sharpness", 0),
   ("image_no", 1), ("exposure", 1), ("time_step", 2), ("vid_time", 10)]

/-- Python `setattr(self, attr, v)` for the integer-valued attributes that
appear in this program.  Assigning to a name that is not an existing field
creates that attribute, modelled by the `Option Int` fields. -/
def setattrInt (m : PiCamManager) (attr : String) (v : Int) : PiCamManager :=
  if attr = "brightness" then { m with brightness := v }
  else if attr = "contrast" then { m with contrast := v }
  else if attr = "saturation" then { m with saturation := v }
  else if attr = "sharpness" then { m with sharpness := v }
  else if attr = "img_count" then { m with img_count := v }
  else if attr = "exposure" then { m with exposure := v }
  else if attr = "time_step" then { m with time_step := v }
  else if attr = "vid_time" then { m with vid_time := v }
  else if attr = "image_no" then { m with image_no := some v }
  else if attr = "exposure_img_count" then { m with exposure_img_count := some v }
  else m

/-- `PiCamManager.reset_to_default`: iterates over the `default_settings`
dictionary and performs `setattr(self, attr, value)` for each entry.  The
subsequent re-application of brightness/contrast/saturation/sharpness to the
camera device is a device side effect and does not change this state. -/
def reset_to_default (m : PiCamManager) : PiCamManager :=
  default_settings.foldl (fun s kv => setattrInt s kv.1 kv.2) m

/-- The slider values read from the GUI `values` dictionary by
`update_camera_settings` (already coerced with `int(...)`, which on the
integer-valued widgets of this program is the identity). -/
structure GuiValues where
  brightness_slider : Int
  contrast_slider : Int
  saturation_slider : Int
  sharpness_slider : Int
  exposure_slider : Int
  no_images_slider : Int
  time_step_slider : Int
  video_duration_slider : Int
  deriving Repr, DecidableEq

/-- `PiCamManager.update_camera_settings`: stores each slider value on the
object unchanged.  Note two faithful oddities of the source: the image-count
input is assigned to the attribute `exposure_img_count`, not to `img_count`,
and no value is range-checked or clamped anywhere. -/
def update_camera_settings (m : PiCamManager) (v : GuiValues) : PiCamManager :=
  { m with
    brightness := v.brightness_slider
    contrast := v.contrast_slider
    saturation := v.saturation_slider
    sharpness := v.sharpness_slider
    exposure := v.exposure_slider
    exposure_img_count := some v.no_images_slider
    time_step := v.time_step_slider
    vid_time := v.video_duration_slider }

/-- Modelled from the spec: the declared domains of the numeric fields
(brightness [0,100], contrast [-100,100], saturation [-100,100],
sharpness [0,100], exposure at least 0, image count at least 1, time step at
least 0, video duration at least 1).  Used only to compare the stored state
against the domains the specification declares. -/
def inDomainB (m : PiCamManager) : Bool :=
  (0 ≤ m.brightness && m.brightness ≤ 100) &&
  (-100 ≤ m.contrast && m.contrast ≤ 100) &&
  (-100 ≤ m.saturation && m.saturation ≤ 100) &&
  (0 ≤ m.sharpness && m.sharpness ≤ 100) &&
  (0 ≤ m.exposure) && (1 ≤ m.img_count) && (0 ≤ m.time_step) && (1 ≤ m.vid_time)

/-! Decimal rendering of integers, modelling the Python `str`/format
conversion used inside f-strings and `strftime`.  The auxiliary function
carries fuel so that the definition is structural and computable by the
kernel; `natDigits n` calls it with fuel `n + 1`, which is strictly more
than the number of decimal digits of `n`. -/

/-- Decimal digit characters of `n`, most significant first, with `fuel`
bounding the recursion depth. -/
def natDigitsAux : Nat → Nat → List Char
  | 0, _ => []
  | fuel + 1, n =>
    if n < 10 then [Char.ofNat (48 + n)]
    else natDigitsAux fuel (n / 10) ++ [Char.ofNat (48 + n % 10)]

/-- Decimal digit characters of `n`, most significant first. -/
def natDigits (n : Nat) : List Char :=
  natDigitsAux (n + 1) n

/-- Decimal string of a natural number, as Python `str` renders it. -/
def natStr (n : Nat) : String :=
  ⟨natDigits n⟩

/-- Decimal string of an integer, as Python `str` renders it. -/
def intStr (i : Int) : String :=
  if i < 0 then "-" ++ natStr i.natAbs else natStr i.toNat

/-- Zero-padding of a digit-character list to width `w`, as the `strftime`
field formats `%d`, `%m`, `%Y`, `%H`, `%M`, `%S` pad their fields. -/
def zeroPad (w : Nat) (cs : List Char) : List Char :=
  List.replicate (w - cs.length) (Char.ofNat 48) ++ cs

/-- A natural number zero-padded to width 2 (the `%d`, `%m`, `%H`, `%M`,
`%S` fields of `strftime`). -/
def pad2 (n : Nat) : String :=
  ⟨zeroPad 2 (natDigits n)⟩

/-- A natural number zero-padded to width 4 (the `%Y` field of `strftime`). -/
def pad4 (n : Nat) : String :=
  ⟨zeroPad 4 (natDigits n)⟩

/-- The wall-clock instant returned by `datetime.now()`, to the granularity
the program formats. -/
structure Timestamp where
  day : Nat
  month : Nat
  year : Nat
  hour : Nat
  minute : Nat
  second : Nat
  deriving Repr, DecidableEq

/-- `now.strftime("%d_%m_%Y_%H_%M_%S")`: the timestamp string used in every
generated filename.  All separators are underscores; the source comment notes
that colons were removed because the target filesystem disliked them. -/
def strftimeStamp (t : Timestamp) : String :=
  pad2 t.day ++ "_" ++ pad2 t.month ++ "_" ++ pad4 t.year ++ "_" ++
  pad2 t.hour ++ "_" ++ pad2 t.minute ++ "_" ++ pad2 t.second

/-- The GUI checkbox values read by `capture_image`. -/
structure CaptureValues where
  greyscale : Bool
  dark : Bool
  light : Bool
  flat : Bool
  bias : Bool
  deriving Repr, DecidableEq

/-- The `file_append` suffix built in `capture_image`: starts empty, then
appends `_dark`, `_light`, `_flat`, `_bias` in that textual order, each
guarded by its checkbox. -/
def file_append (v : CaptureValues) : String :=
  let fa := ""
  let fa := if v.dark then fa ++ "_dark" else fa
  let fa := if v.light then fa ++ "_light" else fa
  let fa := if v.flat then fa ++ "_flat" else fa
  if v.bias then fa ++ "_bias" else fa

/-- Modelled from the spec: `optionalFrameTagSuffix` concatenates the active
frame-tag flags in the fixed order dark, light, flat, bias. -/
def optionalFrameTagSuffix (v : CaptureValues) : String :=
  (if v.dark then "_dark" else "") ++ (if v.light then "_light" else "") ++
  (if v.flat then "_flat" else "") ++ (if v.bias then "_bias" else "")

/-- The long-exposure marker `_LE_{exposure}s` present only in the
long-exposure branch of `capture_image`. -/
def longExposureTag : Option Int → String
  | none => ""
  | some e => "_LE_" ++ intStr e ++ "s"

/-- The part of a still-image filename that the program constructs (the
f-string of `capture_image` without the user-chosen save directory). -/
def image_file_part (curr : String) (i : Nat) (oe : Option Int) (fa : String) : String :=
  "/astropito_image_" ++ curr ++ "_no-" ++ natStr i ++ longExposureTag oe ++ fa ++ ".jpeg"

/-- The full still-image filename built by `capture_image`. -/
def image_file_name (save curr : String) (i : Nat) (oe : Option Int) (fa : String) : String :=
  save ++ image_file_part curr i oe fa

/-- The part of a video filename that the program constructs (the f-string of
`capture_video` without the user-chosen save directory). -/
def video_file_part (curr : String) (vt : Int) : String :=
  "/astropito_video_" ++ curr ++ "_" ++ intStr vt ++ "s.yuv"

/-- The full video filename built by `capture_video`. -/
def video_file_name (save curr : String) (vt : Int) : String :=
  save ++ video_file_part curr vt

/-! Event-trace model of the capture operations.  Each assignment to a
camera property, each GUI status update, each sleep and each capture call
of the source is recorded as one trace event, in program order.  A run
returns the trace of the events that happened together with either the
resulting manager state or `Except.error ()` when a Python exception
escaped (the source has no try/except around any of this code, so every
device exception propagates to the caller). -/

/-- One observable side effect of `capture_image` / `capture_video`. -/
inductive CamEvent where
  | setStatus (s : String)
  | refresh
  | setColorEffects (v : Option (Int × Int))
  | setResolution (w h : Int)
  | setFramerate (num den : Int)
  | setShutterSpeed (us : Int)
  | setISO (v : Int)
  | sleep (secs : Int)
  | setExposureMode (mode : String)
  | capture (file : String)
  | convertDNG (file : String)
  | startRecording (file : String)
  | waitRecording (secs : Int)
  | stopRecording
  deriving Repr, DecidableEq

/-- The device events performed before the capture call in one iteration of
the long-exposure loop: framerate `1 / exposure`, shutter duration
`exposure * 1000000` microseconds, ISO 800, a 30 second settling sleep, and
exposure mode off. -/
def longExpPreEvents (e : Int) : List CamEvent :=
  [CamEvent.setFramerate 1 e, CamEvent.setShutterSpeed (e * 1000000),
   CamEvent.setISO 800, CamEvent.sleep 30, CamEvent.setExposureMode "off"]

/-- All events of one completed iteration of the long-exposure loop for
frame index `i`: the device setup, the capture, and the optional DNG
conversion. -/
def longExpIterEvents (save curr : String) (e : Int) (fa : String) (dng : Bool)
    (i : Nat) : List CamEvent :=
  longExpPreEvents e ++
  CamEvent.capture (image_file_name save curr i (some e) fa) ::
  (if dng then [CamEvent.convertDNG (image_file_name save curr i (some e) fa)] else [])

/-- All events of one completed iteration of the normal-branch loop for frame
index `i`: the capture, the inter-shot sleep of `time_step` seconds, and the
optional DNG conversion. -/
def normalIterEvents (save curr : String) (ts : Int) (fa : String) (dng : Bool)
    (i : Nat) : List CamEvent :=
  CamEvent.capture (image_file_name save curr i none fa) :: CamEvent.sleep ts ::
  (if dng then [CamEvent.convertDNG (image_file_name save curr i none fa)] else [])

/-- The `for i in range(self.img_count)` loop of the long-exposure branch
(`self.exposure > 1`), iterating with index `i` and `k` iterations left.
`fails i` tells whether the `picam.capture` call of iteration `i` raises; a
raised exception aborts the loop after the device-setup events of that
iteration have already happened.  The third argument threads the Python
variable `image_file`, which is still unbound (`none`) when the loop body
has never run. -/
def longExpLoop (save curr : String) (e : Int) (fa : String) (dng : Bool)
    (fails : Nat → Bool) : Nat → Nat → Option String →
    List CamEvent × Except Unit (Option String)
  | _, 0, last => ([], Except.ok last)
  | i, k + 1, _ =>
    if fails i then (longExpPreEvents e, Except.error ())
    else
      let f := image_file_name save curr i (some e) fa
      let rest := longExpLoop save curr e fa dng fails (i + 1) k (some f)
      (longExpIterEvents save curr e fa dng i ++ rest.1, rest.2)

/-- The `for i in range(self.img_count)` loop of the normal branch
(`self.exposure <= 1`): capture, sleep `time_step`, optional DNG conversion.
A failing capture aborts the loop before any event of its iteration. -/
def normalLoop (save curr : String) (ts : Int) (fa : String) (dng : Bool)
    (fails : Nat → Bool) : Nat → Nat → Option String →
    List CamEvent × Except Unit (Option String)
  | _, 0, last => ([], Except.ok last)
  | i, k + 1, _ =>
    if fails i then ([], Except.error ())
    else
      let f := image_file_name save curr i none fa
      let rest := normalLoop save curr ts fa dng fails (i + 1) k (some f)
      (normalIterEvents save curr ts fa dng i ++ rest.1, rest.2)

/-- The assignment `self.last_image = image_file` at the end of
`capture_image`. -/
def set_last_image (m : PiCamManager) (f : String) : PiCamManager :=
  { m with last_image := f }

/-- The code of `capture_image` after its capture loop: on a raised exception
nothing further runs; otherwise the branch-specific `post` events run
(resetting framerate and exposure mode in the long-exposure branch, nothing
in the normal branch), then `self.last_image = image_file` (a `NameError`
escapes when the loop body never ran and `image_file` is unbound), then the
status is reset to Idle. -/
def finishImage (m : PiCamManager) (pre evs post : List CamEvent)
    (res : Except Unit (Option String)) : List CamEvent × Except Unit PiCamManager :=
  match res with
  | Except.error _ => (pre ++ evs, Except.error ())
  | Except.ok none => (pre ++ evs ++ post, Except.error ())
  | Except.ok (some f) =>
      (pre ++ evs ++ post ++ [CamEvent.setStatus "Idle", CamEvent.refresh],
       Except.ok (set_last_image m f))

/-- `PiCamManager.capture_image`: computes the timestamp once, sets the
status to Working, applies the greyscale option, builds `file_append`, then
runs the long-exposure loop when `self.exposure > 1` and the normal loop
otherwise; afterwards the long-exposure branch restores framerate 30 and
auto exposure, `self.last_image` is set to the last written file and the
status returns to Idle. -/
def capture_image (m : PiCamManager) (v : CaptureValues) (save : String)
    (now : Timestamp) (fails : Nat → Bool) : List CamEvent × Except Unit PiCamManager :=
  let curr := strftimeStamp now
  let pre := [CamEvent.setStatus "Working...", CamEvent.refresh,
              CamEvent.setColorEffects (if v.greyscale then some (128, 128) else none)]
  let fa := file_append v
  if 1 < m.exposure then
    let lr := longExpLoop save curr m.exposure fa m.DNG_convert fails 0 m.img_count.toNat none
    finishImage m pre lr.1
      [CamEvent.setFramerate 30 1, CamEvent.setExposureMode "auto"] lr.2
  else
    let lr := normalLoop save curr m.time_step fa m.DNG_convert fails 0 m.img_count.toNat none
    finishImage m pre lr.1 [] lr.2

/-- `PiCamManager.capture_video`: timestamp, status Working (updated twice in
the source, once with a refresh), resolution 3296x2464, then a blocking
record of `self.vid_time` seconds into one yuv file, then status Idle.
`failStart` tells whether the `start_recording` call raises. -/
def capture_video (m : PiCamManager) (save : String) (now : Timestamp)
    (failStart : Bool) : List CamEvent × Except Unit PiCamManager :=
  let curr := strftimeStamp now
  let f := video_file_name save curr m.vid_time
  let pre := [CamEvent.setStatus "Working...", CamEvent.refresh,
              CamEvent.setStatus "Working...", CamEvent.setResolution 3296 2464]
  if failStart then (pre, Except.error ())
  else
    (pre ++ [CamEvent.startRecording f, CamEvent.waitRecording m.vid_time,
             CamEvent.stopRecording, CamEvent.setStatus "Idle", CamEvent.refresh],
     Except.ok m)

/-- The filenames passed to `picam.capture` in a trace, in order. -/
def capturedFiles (tr : List CamEvent) : List String :=
  tr.filterMap fun e =>
    match e with
    | CamEvent.capture f => some f
    | _ => none

/-- The status strings written to the GUI status element, in order. -/
def statuses (tr : List CamEvent) : List String :=
  tr.filterMap fun e =>
    match e with
    | CamEvent.setStatus s => some s
    | _ => none

/-- The status element content when the run ends (normally or by an escaped
exception). -/
def lastStatus (tr : List CamEvent) : Option String :=
  (statuses tr).getLast?

/-! Model of the Delete handler of `create_image_window` and of the overlay
padding and the archival-conversion flag of the event loop. -/

/-- The placeholder shown when no capture is referenced. -/
def sentinel : String := "blackimage.png"

/-- State visible to the Delete handler: the existing files and the
last-capture reference. -/
structure ImageWindowState where
  files : List String
  last_image : String
  deriving Repr, DecidableEq

/-- `os.remove`: deletes the file or raises `FileNotFoundError`. -/
def os_remove (files : List String) (f : String) : Except Unit (List String) :=
  if f ∈ files then Except.ok (files.erase f) else Except.error ()

/-- The Delete branch of `create_image_window`: inside a try/except, if the
reference is still the placeholder nothing happens; otherwise the file is
removed and the reference reset to the placeholder; any exception from
`os.remove` is caught (printed) and leaves the state unchanged, so the
handler itself never raises. -/
def delete_last_image (st : ImageWindowState) : ImageWindowState :=
  if st.last_image = sentinel then st
  else
    match os_remove st.files st.last_image with
    | Except.ok fs2 => { files := fs2, last_image := sentinel }
    | Except.error _ => st

/-- `_pad(resolution, width, height)` from the GUI code (defaults
`width = 32`, `height = 16`): rounds each component up to the next multiple
of the block size with `((r + (b - 1)) // b) * b`. -/
def _pad (resolution : Nat × Nat) (width height : Nat) : Nat × Nat :=
  (((resolution.1 + (width - 1)) / width) * width,
   ((resolution.2 + (height - 1)) / height) * height)

/-- The archival-conversion flag update performed once per event-loop
iteration: `if values["convertdng"] is True: DNG_convert = True` (there is
no else branch and no other assignment to the flag). -/
def dng_flag_step (flag : Bool) (convertdng : Bool) : Bool :=
  if convertdng = true then true else flag

/-- The proposition that a string contains no colon character. -/
abbrev noColon (s : String) : Prop := ∀ c ∈ s.data, c ≠ ':'

/-! Concrete instances used to exercise the model. -/

/-- Capture checkbox values with every box unchecked. -/
def cvNone : CaptureValues := ⟨false, false, false, false, false⟩

/-- A sample wall-clock instant: 1 Feb 2021, 03:04:05. -/
def ts0 : Timestamp := ⟨1, 2, 2021, 3, 4, 5⟩

/-- A manager state whose every user-adjustable numeric field differs from
its default. -/
def tweakedManager : PiCamManager :=
  { initManager with
    brightness := 77, contrast := 5, saturation := -3,
    sharpness := 9, img_count := 5, exposure := 4, time_step := 7, vid_time := 99 }

/-- Raw slider values that are all outside their declared domains. -/
def outOfRangeValues : GuiValues :=
  { brightness_slider := 200, contrast_slider := -150, saturation_slider := 120,
    sharpness_slider := -5, exposure_slider := -1, no_images_slider := 0,
    time_step_slider := -2, video_duration_slider := 0 }

/-- The example of the spec: exposure 1 (normal branch), three images, no
inter-shot delay. -/
def m3 : PiCamManager := { initManager with img_count := 3, time_step := 0 }

/-- A one-shot long-exposure state (exposure 2 seconds). -/
def mLong1 : PiCamManager := { initManager with exposure := 2 }

/-- A two-shot long-exposure state (exposure 2 seconds, two images). -/
def mLong2 : PiCamManager := { initManager with exposure := 2, img_count := 2 }

/-! Helper lemmas about decimal rendering and colon-freedom. -/

theorem noColon_append {a b : String} (ha : noColon a) (hb : noColon b) :
    noColon (a ++ b) := by
  intro c hc
  have hc2 : c ∈ a.data ++ b.data := hc
  rcases List.mem_append.mp hc2 with h | h
  · exact ha c h
  · exact hb c h

theorem digitChar_ne_colon : ∀ d : Nat, d < 10 → Char.ofNat (48 + d) ≠ ':' := by decide

theorem natDigitsAux_no_colon : ∀ fuel n : Nat, ∀ c ∈ natDigitsAux fuel n, c ≠ ':' := by
  intro fuel
  induction fuel with
  | zero => intro n c hc; simp [natDigitsAux] at hc
  | succ fuel ih =>
    intro n c hc
    simp only [natDigitsAux] at hc
    by_cases h : n < 10
    · rw [if_pos h] at hc
      simp only [List.mem_singleton] at hc
      subst hc
      exact digitChar_ne_colon n h
    · rw [if_neg h] at hc
      rcases List.mem_append.mp hc with h2 | h2
      · exact ih (n / 10) c h2
      · simp only [List.mem_singleton] at h2
        subst h2
        exact digitChar_ne_colon (n % 10) (Nat.mod_lt n (by norm_num))

theorem natStr_no_colon (n : Nat) : noColon (natStr n) :=
  fun c hc => natDigitsAux_no_colon (n + 1) n c hc

theorem intStr_no_colon (i : Int) : noColon (intStr i) := by
  unfold intStr
  by_cases h : i < 0
  · rw [if_pos h]
    exact noColon_append (by decide) (natStr_no_colon _)
  · rw [if_neg h]
    exact natStr_no_colon _

theorem zeroPad_no_colon (w : Nat) (cs : List Char) (h : ∀ c ∈ cs, c ≠ ':') :
    ∀ c ∈ zeroPad w cs, c ≠ ':' := by
  intro c hc
  rcases List.mem_append.mp hc with h2 | h2
  · rw [List.eq_of_mem_replicate h2]; decide
  · exact h c h2

theorem pad2_no_colon (n : Nat) : noColon (pad2 n) :=
  fun c hc => zeroPad_no_colon 2 (natDigits n) (natDigitsAux_no_colon (n + 1) n) c hc

theorem pad4_no_colon (n : Nat) : noColon (pad4 n) :=
  fun c hc => zeroPad_no_colon 4 (natDigits n) (natDigitsAux_no_colon (n + 1) n) c hc

theorem strftimeStamp_no_colon (t : Timestamp) : noColon (strftimeStamp t) := by
  unfold strftimeStamp
  refine noColon_append (noColon_append (noColon_append (noColon_append
    (noColon_append (noColon_append (noColon_append (noColon_append
      (noColon_append (noColon_append (pad2_no_colon t.day) (by decide))
        (pad2_no_colon t.month)) (by decide)) (pad4_no_colon t.year)) (by decide))
        (pad2_no_colon t.hour)) (by decide)) (pad2_no_colon t.minute)) (by decide))
    (pad2_no_colon t.second)

theorem file_append_no_colon (v : CaptureValues) : noColon (file_append v) := by
  rcases v with ⟨g, d, l, f, b⟩
  cases g <;> cases d <;> cases l <;> cases f <;> cases b <;> decide

theorem longExposureTag_no_colon (oe : Option Int) : noColon (longExposureTag oe) := by
  rcases oe with _ | e
  · decide
  · exact noColon_append (noColon_append (by decide) (intStr_no_colon e)) (by decide)

/-- C7: the frame-tag suffix built by `capture_image` concatenates the active
flags in the fixed textual order dark, light, flat, bias, independently of
any order in which the operator set them (the checkbox state carries no order
at all); it agrees with the suffix the spec describes, and with dark and flat
active it is exactly "_dark_flat", never "_flat_dark". -/
theorem frame_tag_fixed_order :
    (∀ v : CaptureValues, file_append v = optionalFrameTagSuffix v) ∧
    file_append ⟨false, true, false, true, false⟩ = "_dark_flat" ∧
    file_append ⟨false, true, false, true, false⟩ ≠ "_flat_dark" := by
  refine ⟨?_, by decide, by decide⟩
  intro v
  rcases v with ⟨g, d, l, f, b⟩
  cases g <;> cases d <;> cases l <;> cases f <;> cases b <;> rfl

/-- C8: the program-constructed part of every still-image and video filename
(timestamp, index suffix, long-exposure suffix, frame-tag suffix, extension)
contains no colon character, for every timestamp, checkbox state, frame
index, exposure and video duration; the timestamp joins its
day/month/year/hour/minute/second fields with underscores only. -/
theorem constructed_filenames_no_colon (now : Timestamp) (v : CaptureValues)
    (i : Nat) (oe : Option Int) (vt : Int) :
    noColon (image_file_part (strftimeStamp now) i oe (file_append v)) ∧
    noColon (video_file_part (strftimeStamp now) vt) := by
  constructor
  · unfold image_file_part
    exact noColon_append (noColon_append (noColon_append (noColon_append
      (noColon_append (noColon_append (by decide) (strftimeStamp_no_colon now))
        (by decide)) (natStr_no_colon i)) (longExposureTag_no_colon oe))
      (file_append_no_colon v)) (by decide)
  · unfold video_file_part
    exact noColon_append (noColon_append (noColon_append (noColon_append
      (by decide) (strftimeStamp_no_colon now)) (by decide)) (intStr_no_colon vt))
      (by decide)

/-- C1: the reset is partial.  `reset_to_default` restores brightness,
contrast, saturation, sharpness, exposure, time step and video duration, but
it never touches `img_count` (the field every capture loop reads); instead it
creates the previously absent attribute `image_no` and sets it to 1, because
the `default_settings` dictionary uses the key "image_no".  Evaluated at a
state with `img_count = 5`, the count is still 5 after the reset, and no
state at all has its `img_count` changed by the reset. -/
theorem reset_to_default_misses_img_count :
    ((reset_to_default tweakedManager).img_count = 5 ∧
     (reset_to_default tweakedManager).img_count ≠ 1 ∧
     (reset_to_default tweakedManager).image_no = some 1 ∧
     (reset_to_default tweakedManager).brightness = 50 ∧
     (reset_to_default tweakedManager).contrast = 0 ∧
     (reset_to_default tweakedManager).saturation = 0 ∧
     (reset_to_default tweakedManager).sharpness = 0 ∧
     (reset_to_default tweakedManager).exposure = 1 ∧
     (reset_to_default tweakedManager).time_step = 2 ∧
     (reset_to_default tweakedManager).vid_time = 10) ∧
    ∀ m : PiCamManager, (reset_to_default m).img_count = m.img_count :=
  ⟨by decide, fun m => rfl⟩

/-- C2 counterexample: `update_camera_settings` does not clamp.  Feeding the
out-of-range slider values (brightness 200, contrast -150, ...) stores them
unchanged, so after the update the state violates every declared domain;
in particular brightness is 200, not clamped to 100. -/
theorem update_stores_out_of_range_value :
    (update_camera_settings initManager outOfRangeValues).brightness = 200 ∧
    (update_camera_settings initManager outOfRangeValues).contrast = -150 ∧
    inDomainB (update_camera_settings initManager outOfRangeValues) = false := by
  decide

/-- C2 (amended): `update_camera_settings` stores every raw slider value
unchanged, with no clamping and no rejection; out-of-domain inputs are
therefore stored out of range (range enforcement is left entirely to the GUI
widgets).  The image-count input is stored into the separate attribute
`exposure_img_count`, leaving `img_count` itself unchanged. -/
theorem update_stores_raw_values (m : PiCamManager) (v : GuiValues) :
    (update_camera_settings m v).brightness = v.brightness_slider ∧
    (update_camera_settings m v).contrast = v.contrast_slider ∧
    (update_camera_settings m v).saturation = v.saturation_slider ∧
    (update_camera_settings m v).sharpness = v.sharpness_slider ∧
    (update_camera_settings m v).exposure = v.exposure_slider ∧
    (update_camera_settings m v).time_step = v.time_step_slider ∧
    (update_camera_settings m v).vid_time = v.video_duration_slider ∧
    (update_camera_settings m v).img_count = m.img_count ∧
    (update_camera_settings m v).exposure_img_count = some v.no_images_slider :=
  ⟨rfl, rfl, rfl, rfl, rfl, rfl, rfl, rfl, rfl⟩

/-- C6: the Delete handler of the last-image window.  If the reference is
still the placeholder, deleting changes nothing; if it names an existing
file, that file is removed and the reference is reset to the placeholder; if
the referenced file does not exist, the `FileNotFoundError` of `os.remove` is
caught inside the handler and the whole state is left unchanged (the handler
is a total function, so it never raises to the caller). -/
theorem delete_last_image_cases (st : ImageWindowState) :
    (st.last_image = sentinel → delete_last_image st = st) ∧
    (st.last_image ≠ sentinel → st.last_image ∈ st.files →
      delete_last_image st =
        { files := st.files.erase st.last_image, last_image := sentinel }) ∧
    (st.last_image ∉ st.files → delete_last_image st = st) := by
  refine ⟨?_, ?_, ?_⟩
  · intro h
    simp [delete_last_image, h]
  · intro h hm
    simp [delete_last_image, h, os_remove, hm]
  · intro hm
    by_cases h : st.last_image = sentinel
    · simp [delete_last_image, h]
    · simp [delete_last_image, h, os_remove, hm]

/-- Witness for C6: deleting an existing referenced file removes it and
resets the reference to the placeholder. -/
theorem delete_last_image_cases_witness :
    delete_last_image ⟨["/im/a.jpeg"], "/im/a.jpeg"⟩ =
      { files := List.erase ["/im/a.jpeg"] "/im/a.jpeg", last_image := sentinel } :=
  (delete_last_image_cases ⟨["/im/a.jpeg"], "/im/a.jpeg"⟩).2.1 (by decide) (by decide)

/-- C9: with the default block size (width 32, height 16), `_pad` rounds the
width up to the least multiple of 32 and the height up to the least multiple
of 16 (each result is a multiple that is at least the input and less than the
input plus the block size, which pins it to the least such multiple), and
`_pad` is idempotent on its own output. -/
theorem pad_least_multiple_idempotent (w h : Nat) :
    w ≤ (_pad (w, h) 32 16).1 ∧ (_pad (w, h) 32 16).1 - w < 32 ∧
    (_pad (w, h) 32 16).1 % 32 = 0 ∧
    h ≤ (_pad (w, h) 32 16).2 ∧ (_pad (w, h) 32 16).2 - h < 16 ∧
    (_pad (w, h) 32 16).2 % 16 = 0 ∧
    _pad (_pad (w, h) 32 16) 32 16 = _pad (w, h) 32 16 := by
  simp only [_pad]
  refine ⟨by omega, by omega, by omega, by omega, by omega, by omega, ?_⟩
  have h1 : ((((w + (32 - 1)) / 32 * 32 + (32 - 1)) / 32) * 32)
      = (w + (32 - 1)) / 32 * 32 := by omega
  have h2 : ((((h + (16 - 1)) / 16 * 16 + (16 - 1)) / 16) * 16)
      = (h + (16 - 1)) / 16 * 16 := by omega
  simp only [Prod.mk.injEq]
  exact ⟨h1, h2⟩

/-- Helper: once the archival-conversion flag is true, one loop iteration
keeps it true. -/
theorem dng_flag_step_true (c : Bool) : dng_flag_step true c = true := by
  cases c <;> rfl

/-- Helper: once the archival-conversion flag is true, any sequence of later
checkbox observations keeps it true. -/
theorem foldl_dng_true (ys : List Bool) :
    List.foldl dng_flag_step true ys = true := by
  induction ys with
  | nil => rfl
  | cons c ys ih => rw [List.foldl_cons, dng_flag_step_true]; exact ih

/-- C10: the archival-conversion flag latches on.  A true flag stays true
through any iteration; over a whole session, as soon as the checkbox is
observed checked once, the flag is true at the end no matter what the
operator does afterwards (including unchecking); and a capture performed
while the flag is true runs one DNG conversion per captured frame (here the
one-shot default state). -/
theorem dng_flag_latches :
    (∀ f c : Bool, f = true → dng_flag_step f c = true) ∧
    (∀ xs ys : List Bool, List.foldl dng_flag_step false (xs ++ true :: ys) = true) ∧
    (capture_image { initManager with DNG_convert := true } cvNone "/im" ts0
        (fun _ => false)).1.count
      (CamEvent.convertDNG (image_file_name "/im" (strftimeStamp ts0) 0 none "")) = 1 := by
  refine ⟨?_, ?_, by decide⟩
  · intro f c hf
    subst hf
    exact dng_flag_step_true c
  · intro xs
    induction xs with
    | nil => intro ys; simpa [List.foldl_cons] using foldl_dng_true ys
    | cons x xs ih =>
      intro ys
      rw [List.cons_append, List.foldl_cons]
      cases x
      · exact ih ys
      · exact foldl_dng_true (xs ++ true :: ys)

/-- Witness for C10: a true flag survives an iteration in which the checkbox
is unchecked. -/
theorem dng_flag_latches_witness : dng_flag_step true false = true :=
  dng_flag_latches.1 true false rfl

/-! Structural lemmas about the capture loops. -/

theorem capturedFiles_append (a b : List CamEvent) :
    capturedFiles (a ++ b) = capturedFiles a ++ capturedFiles b :=
  List.filterMap_append a b _

theorem statuses_append (a b : List CamEvent) :
    statuses (a ++ b) = statuses a ++ statuses b :=
  List.filterMap_append a b _

theorem statuses_normalIter (save curr : String) (ts : Int) (fa : String)
    (dng : Bool) (i : Nat) :
    statuses (normalIterEvents save curr ts fa dng i) = [] := by
  cases dng <;> rfl

theorem statuses_longExpIter (save curr : String) (e : Int) (fa : String)
    (dng : Bool) (i : Nat) :
    statuses (longExpIterEvents save curr e fa dng i) = [] := by
  cases dng <;> rfl

theorem capturedFiles_normalIter (save curr : String) (ts : Int) (fa : String)
    (dng : Bool) (i : Nat) :
    capturedFiles (normalIterEvents save curr ts fa dng i) =
      [image_file_name save curr i none fa] := by
  cases dng <;> rfl

theorem normalLoop_trace_no_fail (save curr : String) (ts : Int) (fa : String)
    (dng : Bool) :
    ∀ k i : Nat, ∀ last : Option String,
      (normalLoop save curr ts fa dng (fun _ => false) i k last).1 =
        (List.range' i k).flatMap (normalIterEvents save curr ts fa dng) := by
  intro k
  induction k with
  | zero => intro i last; rfl
  | succ k ih =>
    intro i last
    have hstep : (normalLoop save curr ts fa dng (fun _ => false) i (k + 1) last).1 =
        normalIterEvents save curr ts fa dng i ++
          (normalLoop save curr ts fa dng (fun _ => false) (i + 1) k
            (some (image_file_name save curr i none fa))).1 := rfl
    rw [hstep, ih (i + 1) (some (image_file_name save curr i none fa)),
      List.range'_succ, List.flatMap_cons]

theorem normalLoop_res_no_fail (save curr : String) (ts : Int) (fa : String)
    (dng : Bool) :
    ∀ k i : Nat, ∀ last : Option String,
      (normalLoop save curr ts fa dng (fun _ => false) i k last).2 =
        Except.ok (if k = 0 then last
          else some (image_file_name save curr (i + k - 1) none fa)) := by
  intro k
  induction k with
  | zero => intro i last; rfl
  | succ k ih =>
    intro i last
    have hstep : (normalLoop save curr ts fa dng (fun _ => false) i (k + 1) last).2 =
        (normalLoop save curr ts fa dng (fun _ => false) (i + 1) k
          (some (image_file_name save curr i none fa))).2 := rfl
    rw [hstep, ih (i + 1) (some (image_file_name save curr i none fa))]
    by_cases hk : k = 0
    · subst hk; simp
    · rw [if_neg hk, if_neg (Nat.succ_ne_zero k)]
      have harith : i + 1 + k - 1 = i + (k + 1) - 1 := by omega
      rw [harith]

theorem normalLoop_no_status (save curr : String) (ts : Int) (fa : String)
    (dng : Bool) (fails : Nat → Bool) :
    ∀ k i : Nat, ∀ last : Option String,
      statuses (normalLoop save curr ts fa dng fails i k last).1 = [] := by
  intro k
  induction k with
  | zero => intro i last; rfl
  | succ k ih =>
    intro i last
    cases hf : fails i
    · have hstep : (normalLoop save curr ts fa dng fails i (k + 1) last).1 =
          normalIterEvents save curr ts fa dng i ++
            (normalLoop save curr ts fa dng fails (i + 1) k
              (some (image_file_name save curr i none fa))).1 := by
        simp only [normalLoop]
        rw [if_neg (by simp [hf])]
      rw [hstep, statuses_append, statuses_normalIter,
        ih (i + 1) (some (image_file_name save curr i none fa))]
      rfl
    · have hstep : (normalLoop save curr ts fa dng fails i (k + 1) last).1 = [] := by
        simp only [normalLoop]
        rw [if_pos hf]
      rw [hstep]
      rfl

theorem capturedFiles_normal_iters (save curr : String) (ts : Int) (fa : String)
    (dng : Bool) :
    ∀ k i : Nat,
      capturedFiles ((List.range' i k).flatMap (normalIterEvents save curr ts fa dng)) =
        (List.range' i k).map fun j => image_file_name save curr j none fa := by
  intro k
  induction k with
  | zero => intro i; rfl
  | succ k ih =>
    intro i
    rw [List.range'_succ, List.flatMap_cons, List.map_cons, capturedFiles_append,
      capturedFiles_normalIter, ih (i + 1)]
    rfl

theorem longExpLoop_trace_no_fail (save curr : String) (e : Int) (fa : String)
    (dng : Bool) :
    ∀ k i : Nat, ∀ last : Option String,
      (longExpLoop save curr e fa dng (fun _ => false) i k last).1 =
        (List.range' i k).flatMap (longExpIterEvents save curr e fa dng) := by
  intro k
  induction k with
  | zero => intro i last; rfl
  | succ k ih =>
    intro i last
    have hstep : (longExpLoop save curr e fa dng (fun _ => false) i (k + 1) last).1 =
        longExpIterEvents save curr e fa dng i ++
          (longExpLoop save curr e fa dng (fun _ => false) (i + 1) k
            (some (image_file_name save curr i (some e) fa))).1 := rfl
    rw [hstep, ih (i + 1) (some (image_file_name save curr i (some e) fa)),
      List.range'_succ, List.flatMap_cons]

theorem longExpLoop_res_no_fail (save curr : String) (e : Int) (fa : String)
    (dng : Bool) :
    ∀ k i : Nat, ∀ last : Option String,
      (longExpLoop save curr e fa dng (fun _ => false) i k last).2 =
        Except.ok (if k = 0 then last
          else some (image_file_name save curr (i + k - 1) (some e) fa)) := by
  intro k
  induction k with
  | zero => intro i last; rfl
  | succ k ih =>
    intro i last
    have hstep : (longExpLoop save curr e fa dng (fun _ => false) i (k + 1) last).2 =
        (longExpLoop save curr e fa dng (fun _ => false) (i + 1) k
          (some (image_file_name save curr i (some e) fa))).2 := rfl
    rw [hstep, ih (i + 1) (some (image_file_name save curr i (some e) fa))]
    by_cases hk : k = 0
    · subst hk; simp
    · rw [if_neg hk, if_neg (Nat.succ_ne_zero k)]
      have harith : i + 1 + k - 1 = i + (k + 1) - 1 := by omega
      rw [harith]

theorem longExpLoop_no_status (save curr : String) (e : Int) (fa : String)
    (dng : Bool) (fails : Nat → Bool) :
    ∀ k i : Nat, ∀ last : Option String,
      statuses (longExpLoop save curr e fa dng fails i k last).1 = [] := by
  intro k
  induction k with
  | zero => intro i last; rfl
  | succ k ih =>
    intro i last
    cases hf : fails i
    · have hstep : (longExpLoop save curr e fa dng fails i (k + 1) last).1 =
          longExpIterEvents save curr e fa dng i ++
            (longExpLoop save curr e fa dng fails (i + 1) k
              (some (image_file_name save curr i (some e) fa))).1 := by
        simp only [longExpLoop]
        rw [if_neg (by simp [hf])]
      rw [hstep, statuses_append, statuses_longExpIter,
        ih (i + 1) (some (image_file_name save curr i (some e) fa))]
      rfl
    · have hstep : (longExpLoop save curr e fa dng fails i (k + 1) last).1 =
          longExpPreEvents e := by
        simp only [longExpLoop]
        rw [if_pos hf]
      rw [hstep]
      rfl

/-- Status bookkeeping of the code following a capture loop: with a raised
exception the status stays at Working, with a completed loop that never
bound `image_file` the NameError also leaves it at Working, and only a fully
successful run writes Idle. -/
theorem finishImage_status (m : PiCamManager) (pre evs post : List CamEvent)
    (res : Except Unit (Option String))
    (hpre : statuses pre = ["Working..."]) (hevs : statuses evs = [])
    (hpost : statuses post = []) :
    ((finishImage m pre evs post res).2 = Except.error () →
      lastStatus (finishImage m pre evs post res).1 = some "Working...") ∧
    ∀ m2 : PiCamManager, (finishImage m pre evs post res).2 = Except.ok m2 →
      lastStatus (finishImage m pre evs post res).1 = some "Idle" := by
  rcases res with e | of
  · refine ⟨fun _ => ?_, fun m2 hm2 => ?_⟩
    · simp [finishImage, lastStatus, statuses_append, hpre, hevs]
    · simp [finishImage] at hm2
  · rcases of with _ | f
    · refine ⟨fun _ => ?_, fun m2 hm2 => ?_⟩
      · simp [finishImage, lastStatus, statuses_append, hpre, hevs, hpost]
      · simp [finishImage] at hm2
    · refine ⟨fun he => ?_, fun m2 _ => ?_⟩
      · simp [finishImage] at he
      · simp [finishImage, lastStatus, statuses_append, hpre, hevs, hpost, statuses]

/-- C3: in the normal branch (exposure at most 1) with at least one image
requested and no device failure, `capture_image` captures exactly
`img_count` files; the i-th carries the index suffix `no-i` and all of them
share the one timestamp string computed before the loop. -/
theorem normal_branch_filenames (m : PiCamManager) (v : CaptureValues)
    (save : String) (now : Timestamp) (h1 : m.exposure ≤ 1) (h2 : 1 ≤ m.img_count) :
    capturedFiles (capture_image m v save now (fun _ => false)).1 =
      (List.range m.img_count.toNat).map
        (fun i => image_file_name save (strftimeStamp now) i none (file_append v)) ∧
    (capturedFiles (capture_image m v save now (fun _ => false)).1).length =
      m.img_count.toNat ∧
    (m.img_count.toNat : Int) = m.img_count := by
  have hne : ¬ 1 < m.exposure := not_lt.mpr h1
  have hn : m.img_count.toNat ≠ 0 := by omega
  have hmain : capturedFiles (capture_image m v save now (fun _ => false)).1 =
      (List.range m.img_count.toNat).map
        (fun i => image_file_name save (strftimeStamp now) i none (file_append v)) := by
    simp only [capture_image, hne, if_false]
    rw [normalLoop_res_no_fail, if_neg hn]
    simp only [finishImage]
    rw [capturedFiles_append, capturedFiles_append, capturedFiles_append]
    rw [normalLoop_trace_no_fail, capturedFiles_normal_iters, List.range_eq_range']
    simp [capturedFiles]
  refine ⟨hmain, ?_, by omega⟩
  rw [hmain, List.length_map, List.length_range]

/-- Witness for C3 on the example of the spec (exposure 1, three images, no
inter-shot delay): the three generated filenames, indexed no-0, no-1, no-2,
all sharing one timestamp. -/
theorem normal_branch_filenames_witness :
    capturedFiles (capture_image m3 cvNone "/im" ts0 (fun _ => false)).1 =
      ["/im/astropito_image_01_02_2021_03_04_05_no-0.jpeg",
       "/im/astropito_image_01_02_2021_03_04_05_no-1.jpeg",
       "/im/astropito_image_01_02_2021_03_04_05_no-2.jpeg"] :=
  ((normal_branch_filenames m3 cvNone "/im" ts0 (by decide) (by decide)).1).trans
    (by decide)

/-- C4 counterexample: the 30 second settling pause happens inside the loop,
before every shot, not only before the first shot of the series.  A two-shot
long-exposure run (exposure 2, image count 2, no failures) contains two
sleep-30 events for its two captures, where the claim predicts one. -/
theorem long_exposure_sleeps_before_every_shot :
    (capture_image mLong2 cvNone "/im" ts0 (fun _ => false)).1.count
      (CamEvent.sleep 30) = 2 ∧
    (capturedFiles (capture_image mLong2 cvNone "/im" ts0 (fun _ => false)).1).length
      = 2 ∧
    (2 : Nat) ≠ 1 :=
  ⟨by decide, by decide, by decide⟩

/-- C4 (amended): in the long-exposure branch with at least one image and no
device failure, every one of the `img_count` iterations performs, in order,
framerate `1 / exposure`, shutter duration `exposure * 1000000` microseconds,
ISO 800, a 30 second settling pause (thus before every shot, not only the
first), exposure mode off, the capture, and the optional DNG conversion;
after the loop the framerate is restored to the live-preview rate 30 and the
exposure mode to auto, and the run ends back in Idle with `last_image` set to
the final frame. -/
theorem long_exposure_branch_trace (m : PiCamManager) (v : CaptureValues)
    (save : String) (now : Timestamp) (he : 1 < m.exposure) (hn : 1 ≤ m.img_count) :
    (capture_image m v save now (fun _ => false)).1 =
      [CamEvent.setStatus "Working...", CamEvent.refresh,
       CamEvent.setColorEffects (if v.greyscale then some (128, 128) else none)] ++
      (List.range m.img_count.toNat).flatMap
        (longExpIterEvents save (strftimeStamp now) m.exposure (file_append v)
          m.DNG_convert) ++
      [CamEvent.setFramerate 30 1, CamEvent.setExposureMode "auto",
       CamEvent.setStatus "Idle", CamEvent.refresh] ∧
    (capture_image m v save now (fun _ => false)).2 =
      Except.ok (set_last_image m
        (image_file_name save (strftimeStamp now) (m.img_count.toNat - 1)
          (some m.exposure) (file_append v))) := by
  have hn2 : m.img_count.toNat ≠ 0 := by omega
  constructor
  · simp only [capture_image, he, if_true]
    rw [longExpLoop_res_no_fail, if_neg hn2]
    simp only [finishImage]
    rw [longExpLoop_trace_no_fail, List.range_eq_range']
    simp [List.append_assoc]
  · simp only [capture_image, he, if_true]
    rw [longExpLoop_res_no_fail, if_neg hn2]
    simp only [finishImage]
    rw [show (0 : Nat) + m.img_count.toNat - 1 = m.img_count.toNat - 1 from by omega]

/-- Witness for C4 on a one-shot long exposure of 2 seconds: the full event
trace, with the device setup and the settling pause before the shot and the
framerate/exposure-mode restore after the loop. -/
theorem long_exposure_branch_trace_witness :
    (capture_image mLong1 cvNone "/im" ts0 (fun _ => false)).1 =
      [CamEvent.setStatus "Working...", CamEvent.refresh,
       CamEvent.setColorEffects none,
       CamEvent.setFramerate 1 2, CamEvent.setShutterSpeed 2000000,
       CamEvent.setISO 800, CamEvent.sleep 30, CamEvent.setExposureMode "off",
       CamEvent.capture "/im/astropito_image_01_02_2021_03_04_05_no-0_LE_2s.jpeg",
       CamEvent.setFramerate 30 1, CamEvent.setExposureMode "auto",
       CamEvent.setStatus "Idle", CamEvent.refresh] :=
  ((long_exposure_branch_trace mLong1 cvNone "/im" ts0 (by decide) (by decide)).1).trans
    (by decide)

/-- C5 counterexample: a failing capture call propagates as an error, but the
status element still reads Working, so this execution path does end in the
Busy state, contrary to the claim. -/
theorem capture_failure_leaves_working_status :
    (capture_image initManager cvNone "/im" ts0 (fun _ => true)).2 =
      Except.error () ∧
    lastStatus (capture_image initManager cvNone "/im" ts0 (fun _ => true)).1 =
      some "Working..." ∧
    some "Working..." ≠ some "Idle" :=
  ⟨rfl, rfl, by decide⟩

/-- C5 (amended): device errors during `capture_image` or `capture_video`
always propagate to the caller (the run result is an error, never a
swallowed exception), but there is no cleanup handler: a failing run leaves
the GUI status at Working (Busy), and only runs that complete without an
exception return the status to Idle. -/
theorem capture_status_outcomes (m : PiCamManager) (v : CaptureValues)
    (save : String) (now : Timestamp) (fails : Nat → Bool) (failStart : Bool) :
    ((capture_image m v save now fails).2 = Except.error () →
      lastStatus (capture_image m v save now fails).1 = some "Working...") ∧
    (∀ m2 : PiCamManager, (capture_image m v save now fails).2 = Except.ok m2 →
      lastStatus (capture_image m v save now fails).1 = some "Idle") ∧
    ((capture_video m save now failStart).2 = Except.error () →
      lastStatus (capture_video m save now failStart).1 = some "Working...") ∧
    ∀ m2 : PiCamManager, (capture_video m save now failStart).2 = Except.ok m2 →
      lastStatus (capture_video m save now failStart).1 = some "Idle" := by
  have hImg : ((capture_image m v save now fails).2 = Except.error () →
      lastStatus (capture_image m v save now fails).1 = some "Working...") ∧
      ∀ m2 : PiCamManager, (capture_image m v save now fails).2 = Except.ok m2 →
        lastStatus (capture_image m v save now fails).1 = some "Idle" := by
    by_cases he : 1 < m.exposure
    · simp only [capture_image, he, if_true]
      exact finishImage_status m _ _ _ _ rfl
        (longExpLoop_no_status save (strftimeStamp now) m.exposure (file_append v)
          m.DNG_convert fails m.img_count.toNat 0 none) rfl
    · simp only [capture_image, he, if_false]
      exact finishImage_status m _ _ _ _ rfl
        (normalLoop_no_status save (strftimeStamp now) m.time_step (file_append v)
          m.DNG_convert fails m.img_count.toNat 0 none) rfl
  refine ⟨hImg.1, hImg.2, ?_, ?_⟩
  · cases failStart
    · intro h
      exact Except.noConfusion h
    · intro _
      rfl
  · cases failStart
    · intro m2 _
      rfl
    · intro m2 h
      exact Except.noConfusion h

/-- Witness for C5: a run whose single capture call fails ends with the
status stuck at Working. -/
theorem capture_status_outcomes_witness :
    lastStatus (capture_image mLong2 cvNone "/im" ts0 (fun _ => true)).1 =
      some "Working..." :=
  (capture_status_outcomes mLong2 cvNone "/im" ts0 (fun _ => true) true).1 rfl

end AstroPitography
